import Mathlib

/-!
Shallow embedding of the frame-capture-to-encoded-video pipeline of
`src/main.rs` (the `wringer` webview recorder).

The record-mode event loop (`run_record`, lines 203-301) is modelled as a
state machine: one `tick` per host event-loop iteration, plus asynchronous
snapshot-callback completions.  All machine integers follow the Rust types:
`u64` arithmetic is `Nat` with `% 2 ^ 64` where the value can wrap,
`Instant`s are nanosecond offsets from the start of `run_record`, and
`Duration::from_millis` is an explicit `* 1000000`.  The webview host, the
png codec and the gstreamer backend are external collaborators; their
responses enter the model as oracle arguments.  Rust division by zero
panics, so defs below are faithful for positive `fps`; the rate-specific
theorems all use `fps = 30`.
-/

/-- `2 ^ 64`, the modulus of Rust `u64` arithmetic. -/
def u64Mod : Nat := 2 ^ 64

/-- Frame interval of `run_record` (line 223):
`Duration::from_millis(1000 / fps as u64)`, expressed in nanoseconds.
Note the division is whole-millisecond integer division. -/
def frameDurationNs (fps : Nat) : Nat := 1000 / fps * 1000000

/-- Timestamp computed inside the snapshot callback (line 268):
`count as u64 * (1_000_000_000 / fps as u64)` with `u64` wrapping
multiplication (release-profile semantics; a debug build would abort on
the overflow instead — either way no `Overflow` error value exists). -/
def timestampNs (count fps : Nat) : Nat := count * (1000000000 / fps) % u64Mod

/-- Window events the `run_record` event loop distinguishes (lines 288-299). -/
inductive WinEvent where
  | closeRequested
  | redrawRequested
  | otherEvent
  deriving DecidableEq

/-- State of the `run_record` event loop closure (lines 203-301).
`pending` holds, oldest first, the `count` values captured by issued
snapshot callbacks that have not yet run; `channel` is the FIFO sequence of
`(png_data, timestamp)` messages sent on the `mpsc` channel; `eosSends`
counts executions of the `tx.send((Vec::new(), 0u64))` at line 280.
`joinedEncoder` records whether `encoder_handle` was ever joined:
`run_record` contains no `join` call (and `event_loop.run` never returns),
so no transition of the model sets it. -/
structure RecordState where
  fps : Nat
  count : Nat
  lastFrameTime : Nat
  activeWebview : Bool
  pending : List Nat
  channel : List (List Nat × Nat)
  eosSends : Nat
  exitRequested : Bool
  joinedEncoder : Bool
  deriving DecidableEq

/-- Initial state of the `run_record` loop: `count = 1` (line 211),
`last_frame_time = Instant::now()` (offset 0), `active_webview = false`
(line 244). -/
def initState (fps : Nat) : RecordState :=
  { fps := fps, count := 1, lastFrameTime := 0, activeWebview := false,
    pending := [], channel := [], eosSends := 0, exitRequested := false,
    joinedEncoder := false }

/-- One event-loop iteration (lines 247-300).  The snapshot branch
(lines 253-286) runs first, gated only on the elapsed interval and
`active_webview`; `Instant::duration_since` saturates at zero exactly like
`Nat` subtraction.  Issuing a snapshot appends the current `count` (the
value the `move` closure captures) to `pending`; at `count == 400` the
`(Vec::new(), 0)` end message is sent (line 280); then `count += 1`.
The event `match` (lines 288-299) runs after the branch. -/
def tick (s : RecordState) (now : Nat) (ev : WinEvent) : RecordState :=
  let s1 :=
    if frameDurationNs s.fps ≤ now - s.lastFrameTime ∧ s.activeWebview = true then
      let s2 := { s with pending := s.pending ++ [s.count], lastFrameTime := now }
      let s3 :=
        if s2.count = 400 then
          { s2 with channel := s2.channel ++ [([], 0)], eosSends := s2.eosSends + 1 }
        else s2
      { s3 with count := s3.count + 1 }
    else s
  match ev with
  | .closeRequested => { s1 with exitRequested := true }
  | .redrawRequested => { s1 with activeWebview := true }
  | .otherEvent => s1

/-- The gating condition of the snapshot branch (line 253). -/
def tickCond (s : RecordState) (now : Nat) : Prop :=
  frameDurationNs s.fps ≤ now - s.lastFrameTime ∧ s.activeWebview = true

instance (s : RecordState) (now : Nat) : Decidable (tickCond s now) := by
  unfold tickCond; infer_instance

/-- Completion of the snapshot callback (lines 256-270) for the pending
request at position `idx` (the host may complete overlapping requests in
any order).  An `Err` from `take_snapshot` becomes an empty payload
(lines 259-262); the message `(png_data, count * (10^9/fps))` is sent on
the channel with the `count` captured at issuance. -/
def callbackRun (s : RecordState) (idx : Nat) (result : Except String (List Nat)) :
    RecordState :=
  match s.pending[idx]? with
  | none => s
  | some c =>
      let png : List Nat :=
        match result with
        | .ok d => d
        | .error _ => []
      { s with pending := s.pending.eraseIdx idx,
               channel := s.channel ++ [(png, timestampNs c s.fps)] }

/-- Interleaving steps of the event-loop thread: loop iterations and
snapshot-callback completions. -/
inductive Step where
  | tick (now : Nat) (ev : WinEvent)
  | callback (idx : Nat) (result : Except String (List Nat))

/-- Apply one step. -/
def stepFn (s : RecordState) : Step → RecordState
  | .tick now ev => tick s now ev
  | .callback idx result => callbackRun s idx result

/-- Run the `run_record` event loop from its initial state over a list of
steps. -/
def run_record (fps : Nat) (steps : List Step) : RecordState :=
  steps.foldl stepFn (initState fps)

/-- Body of the encoder thread (lines 226-242): receive messages in FIFO
order; an empty payload or a zero timestamp finalizes the encoder and
breaks the loop; otherwise the png is pushed with its timestamp.  Returns
(timestamps pushed to the encoder, whether `finish` ran). -/
def encoderThread : List (List Nat × Nat) → List Nat × Bool
  | [] => ([], false)
  | (png, ts) :: rest =>
      if png = [] ∨ ts = 0 then ([], true)
      else (ts :: (encoderThread rest).1, (encoderThread rest).2)

/-- The canonical sequential recording trace: the webview becomes active on
a first `RedrawRequested` tick, then each frame is one tick exactly one
frame interval after the previous request followed by the successful
completion of that request's callback (so captures never overlap). -/
def seqTrace (fps : Nat) (payload : List Nat) : Nat → List Step
  | 0 => [.tick 0 .redrawRequested]
  | n + 1 =>
      seqTrace fps payload n ++
        [.tick ((n + 1) * frameDurationNs fps) .otherEvent,
         .callback 0 (.ok payload)]

/-- A trace in which the single issued capture's callback reports an error. -/
def c2Trace : List Step :=
  [.tick 0 .redrawRequested, .tick 33000000 .otherEvent,
   .callback 0 (.error "snapshot failed")]

/-- A trace with two elapsed-interval ticks and no callback in between. -/
def c3Trace : List Step :=
  [.tick 0 .redrawRequested, .tick 33000000 .otherEvent, .tick 66000000 .otherEvent]

/-! ## Encoder session (`PngVideoEncoder`, lines 308-468)

The `PngVideoEncoder` struct (lines 308-314) holds only the pipeline
handles, the dimensions and the framerate — it has no last-pts field and no
finalized flag, which is what several theorems below are about. -/

/-- The `gst::FlowReturn` values observable through the code's `match`
arms: the four `FlowSuccess` variants (lines 423-426) and the
`FlowError` variants of gstreamer. -/
inductive GstFlowReturn where
  | ok
  | customSuccess
  | customSuccess1
  | customSuccess2
  | flushing
  | eos
  | notLinked
  | notNegotiated
  | error
  | notSupported
  | customError
  | customError1
  | customError2
  deriving DecidableEq

/-- Whether a flow return is one of the four `FlowSuccess` variants. -/
def GstFlowReturn.isSuccess : GstFlowReturn → Bool
  | .ok | .customSuccess | .customSuccess1 | .customSuccess2 => true
  | _ => false

/-- The fixed display name of each flow-error variant (used by the
`format!("Failed to push buffer: {:?}", err)` arm at line 429 and by the
`?` conversion of `end_of_stream()`'s error at line 451).  The exact
spellings are gstreamer's; what matters is that they form a fixed set. -/
def GstFlowReturn.name : GstFlowReturn → String
  | .ok => "Ok"
  | .customSuccess => "CustomSuccess"
  | .customSuccess1 => "CustomSuccess1"
  | .customSuccess2 => "CustomSuccess2"
  | .flushing => "Flushing"
  | .eos => "Eos"
  | .notLinked => "NotLinked"
  | .notNegotiated => "NotNegotiated"
  | .error => "Error"
  | .notSupported => "NotSupported"
  | .customError => "CustomError"
  | .customError1 => "CustomError1"
  | .customError2 => "CustomError2"

/-- A gstreamer buffer as configured by `push_png_buffer_with_timestamp`
(lines 411-420): data, pts, and duration. -/
structure GstBuffer where
  data : List Nat
  pts : Nat
  duration : Nat
  deriving DecidableEq

/-- The buffer built at lines 411-420: pts is the given `timestamp_ns`
and the duration is `1_000_000_000 / framerate.numer() as u64 *
framerate.denom() as u64` (left-associated `u64` arithmetic). -/
def mkGstBuffer (numer denom : Nat) (png_data : List Nat) (timestamp_ns : Nat) :
    GstBuffer :=
  { data := png_data, pts := timestamp_ns,
    duration := 1000000000 / numer * denom % u64Mod }

/-- `PngVideoEncoder::push_png_buffer_with_timestamp` (lines 406-431):
builds the buffer, pushes it to the backend (`appsrc.push_buffer`,
modelled as the function `backend` from the pushed buffer to the backend's
flow return), and classifies the result.  On success the pushed buffer is
returned so theorems can speak about what was forwarded. -/
def push_png_buffer_with_timestamp (numer denom : Nat) (png_data : List Nat)
    (timestamp_ns : Nat) (backend : GstBuffer → GstFlowReturn) :
    Except String GstBuffer :=
  let buffer := mkGstBuffer numer denom png_data timestamp_ns
  match backend buffer with
  | .ok => .ok buffer
  | .customSuccess => .ok buffer
  | .customSuccess2 => .ok buffer
  | .customSuccess1 => .ok buffer
  | .flushing => .error "Pipeline is flushing"
  | .eos => .error "End of stream"
  | r => .error ("Failed to push buffer: " ++ r.name)

/-- Messages delivered on the pipeline bus while `finish` drains it
(lines 454-463); `gstError` carries the backend's error description. -/
inductive BusMessage where
  | eosMsg
  | gstError (msg : String)
  | otherMsg

/-- The bus-drain loop of `finish` (lines 455-463): iterate messages,
break on `Eos`, return `"Pipeline error: {err}"` on `Error`, skip the rest.
(`iter_timed(NONE)` blocks until a message arrives; the list is the
sequence of messages actually delivered.) -/
def busDrain : List BusMessage → Except String Unit
  | [] => .ok ()
  | .eosMsg :: _ => .ok ()
  | .gstError m :: _ => .error ("Pipeline error: " ++ m)
  | .otherMsg :: rest => busDrain rest

/-- `PngVideoEncoder::finish` (lines 450-467): `end_of_stream()?`, then
drain the bus, then `set_state(Null)?`.  The struct has no finalized flag,
so a second call performs exactly the same backend sequence; the three
backend outcomes are the function's arguments. -/
def finish (endOfStreamRet : GstFlowReturn) (busMessages : List BusMessage)
    (setStateNullOk : Bool) : Except String Unit :=
  if endOfStreamRet.isSuccess = true then
    match busDrain busMessages with
    | .error e => .error e
    | .ok () => if setStateNullOk then .ok () else .error "StateChangeError"
  else
    .error endOfStreamRet.name

/-! ## Capture mode (`process_png_data`, lines 25-37)

The png decode (`image::load_from_memory`) and `save` are external
(image crate); they are passed as oracle booleans.  `std::process::exit(1)`
at line 34 precedes the `println!("Screenshot saved as output.png")` at
line 35, so that log line is unreachable. -/

/-- Observable outcome of one `process_png_data` call. -/
structure CaptureOutcome where
  logs : List String
  savedOutputPng : Bool
  exitCode : Option Nat
  panicked : Bool
  deriving DecidableEq

/-- `process_png_data` (lines 25-37): empty data is only logged; otherwise
decode failure panics (`unwrap` at line 31), save failure panics (`unwrap`
at line 33), and on success the image is saved as `output.png` and the
process exits with status 1, never reaching the success `println!`. -/
def process_png_data (png_data : List Nat) (decodeOk saveOk : Bool) :
    CaptureOutcome :=
  if png_data = [] then
    { logs := ["No PNG data received"], savedOutputPng := false,
      exitCode := none, panicked := false }
  else if decodeOk = false then
    { logs := [], savedOutputPng := false, exitCode := none, panicked := true }
  else if saveOk = false then
    { logs := [], savedOutputPng := false, exitCode := none, panicked := true }
  else
    { logs := [], savedOutputPng := true, exitCode := some 1, panicked := false }

/-! ## Helper lemmas -/

lemma run_record_append (fps : Nat) (l l' : List Step) :
    run_record fps (l ++ l') = l'.foldl stepFn (run_record fps l) := by
  simp [run_record, List.foldl_append]

lemma frameDurationNs_30 : frameDurationNs 30 = 33000000 := by decide

lemma timestampNs_30 (c : Nat) (hc : c ≤ 400) :
    timestampNs c 30 = c * 33333333 := by
  have h1 : c * 33333333 ≤ 400 * 33333333 := Nat.mul_le_mul_right _ hc
  have h2 : (2 : Nat) ^ 64 = 18446744073709551616 := by norm_num
  unfold timestampNs u64Mod
  norm_num
  omega

/-- State reached by the sequential `n`-frame recording trace at rate 30:
all `n` captures completed in order, timestamps `(i+1) * 33333333`. -/
lemma run_record_seqTrace (payload : List Nat) :
    ∀ n, n ≤ 399 →
      run_record 30 (seqTrace 30 payload n) =
        { fps := 30, count := n + 1, lastFrameTime := n * 33000000,
          activeWebview := true, pending := [],
          channel := (List.range n).map (fun i => (payload, (i + 1) * 33333333)),
          eosSends := 0, exitRequested := false, joinedEncoder := false } := by
  intro n
  induction n with
  | zero =>
      intro _
      simp [run_record, seqTrace, stepFn, tick, initState, frameDurationNs]
  | succ n ih =>
      intro hn
      have hst := ih (by omega)
      have h1 : (n + 1) * 33000000 - n * 33000000 = 33000000 := by omega
      have h2 : ¬(n + 1 = 400) := by omega
      have h3 : timestampNs (n + 1) 30 = (n + 1) * 33333333 :=
        timestampNs_30 _ (by omega)
      rw [seqTrace, run_record_append, hst]
      simp [List.foldl, stepFn, tick, callbackRun, frameDurationNs_30, h1, h2, h3,
        List.range_succ]

/-- If no channel message is the terminator, the encoder thread pushes
every timestamp and never finalizes. -/
lemma encoderThread_all_frames (msgs : List (List Nat × Nat))
    (h : ∀ m ∈ msgs, m.1 ≠ [] ∧ m.2 ≠ 0) :
    encoderThread msgs = (msgs.map Prod.snd, false) := by
  induction msgs with
  | nil => rfl
  | cons m rest ih =>
      obtain ⟨h1, h2⟩ := h m (by simp)
      obtain ⟨png, ts⟩ := m
      simp only [encoderThread, List.map_cons]
      rw [if_neg (by simp at h1 h2 ⊢; exact ⟨h1, h2⟩)]
      rw [ih fun m hm => h m (by simp [hm])]

lemma tick_pending (s : RecordState) (now : Nat) (ev : WinEvent) :
    (tick s now ev).pending
      = if tickCond s now then s.pending ++ [s.count] else s.pending := by
  unfold tickCond
  cases ev <;> simp only [tick] <;> split_ifs <;> rfl

lemma tick_count (s : RecordState) (now : Nat) (ev : WinEvent) :
    (tick s now ev).count = if tickCond s now then s.count + 1 else s.count := by
  unfold tickCond
  cases ev <;> simp only [tick] <;> split_ifs <;> rfl

lemma tick_eosSends (s : RecordState) (now : Nat) (ev : WinEvent) :
    (tick s now ev).eosSends
      = if tickCond s now then
          (if s.count = 400 then s.eosSends + 1 else s.eosSends)
        else s.eosSends := by
  unfold tickCond
  cases ev <;> simp only [tick] <;> split_ifs <;> rfl

lemma tick_joinedEncoder (s : RecordState) (now : Nat) (ev : WinEvent) :
    (tick s now ev).joinedEncoder = s.joinedEncoder := by
  cases ev <;> simp only [tick] <;> split_ifs <;> rfl

lemma callbackRun_count (s : RecordState) (idx : Nat)
    (r : Except String (List Nat)) : (callbackRun s idx r).count = s.count := by
  unfold callbackRun
  cases s.pending[idx]? <;> rfl

lemma callbackRun_eosSends (s : RecordState) (idx : Nat)
    (r : Except String (List Nat)) : (callbackRun s idx r).eosSends = s.eosSends := by
  unfold callbackRun
  cases s.pending[idx]? <;> rfl

lemma callbackRun_joinedEncoder (s : RecordState) (idx : Nat)
    (r : Except String (List Nat)) :
    (callbackRun s idx r).joinedEncoder = s.joinedEncoder := by
  unfold callbackRun
  cases s.pending[idx]? <;> rfl

/-- The relation `eosSends = (1 if the counter passed 400 else 0)` is
preserved by every step of the event loop. -/
lemma stepFn_eos_invariant (s : RecordState) (st : Step)
    (h : s.eosSends = if 401 ≤ s.count then 1 else 0) :
    (stepFn s st).eosSends = if 401 ≤ (stepFn s st).count then 1 else 0 := by
  cases st with
  | callback idx r =>
      rw [stepFn, callbackRun_eosSends, callbackRun_count, h]
  | tick now ev =>
      rw [stepFn, tick_eosSends, tick_count]
      split_ifs at h ⊢ <;> omega

lemma stepFn_joinedEncoder (s : RecordState) (st : Step) :
    (stepFn s st).joinedEncoder = s.joinedEncoder := by
  cases st with
  | callback idx r => rw [stepFn, callbackRun_joinedEncoder]
  | tick now ev => rw [stepFn, tick_joinedEncoder]

lemma string_len_zero (m : String) (h : m.length = 0) : m = "" := by
  obtain ⟨data⟩ := m
  simp [String.length] at h
  simp [h]

lemma pipeline_error_ne_alreadyFinalized (m : String) :
    "Pipeline error: " ++ m ≠ "AlreadyFinalized" := by
  intro h
  have h2 := congrArg String.length h
  rw [String.length_append] at h2
  have h3 : "Pipeline error: ".length = 16 := by decide
  have h4 : "AlreadyFinalized".length = 16 := by decide
  have hm : m.length = 0 := by omega
  rw [string_len_zero m hm] at h
  exact absurd h (by decide)

lemma busDrain_error_shape (msgs : List BusMessage) (e : String)
    (h : busDrain msgs = .error e) : ∃ m, e = "Pipeline error: " ++ m := by
  induction msgs with
  | nil => simp [busDrain] at h
  | cons msg rest ih =>
      cases msg with
      | eosMsg => simp [busDrain] at h
      | gstError m =>
          simp [busDrain] at h
          exact ⟨m, h.symm⟩
      | otherMsg => exact ih (by simpa [busDrain] using h)

/-! ## Claim C1 -/

/-- Claim C1, as stated, is false on the code: in the sequential 5-frame
all-success recording at rate 30 the timestamps pushed to the encoder are
`33333333, 66666666, 99999999, 133333332, 166666665` (the counter starts
at 1 and the per-frame step is the truncated `10^9 / 30`), not
`0, 33333333, 66666667, 100000000, 133333333`; moreover, when two issued
captures complete out of order, the channel carries their timestamps out
of order, so the claim also fails "regardless of jitter". -/
theorem C1_counterexample :
    (encoderThread (run_record 30 (seqTrace 30 [7] 5)).channel).1
        = [33333333, 66666666, 99999999, 133333332, 166666665]
    ∧ (encoderThread (run_record 30 (seqTrace 30 [7] 5)).channel).1
        ≠ [0, 33333333, 66666667, 100000000, 133333333]
    ∧ (run_record 30 [.tick 0 .redrawRequested, .tick 33000000 .otherEvent,
          .tick 66000000 .otherEvent, .callback 1 (.ok [7]), .callback 0 (.ok [7])]).channel
        = [([7], 66666666), ([7], 33333333)] := by decide

/-- Claim C1 (amended): for a recording at rate 30 in which `n ≤ 399`
captures each complete before the next request is issued and all succeed,
the timestamps pushed to the encoder are `(i + 1) * 33333333` nanoseconds
for `i = 0 .. n-1`, and they are strictly increasing. -/
theorem C1_pts_arithmetic (n : Nat) (hn : n ≤ 399) (payload : List Nat)
    (hp : payload ≠ []) :
    (encoderThread (run_record 30 (seqTrace 30 payload n)).channel).1
        = (List.range n).map (fun i => (i + 1) * 33333333)
    ∧ ((encoderThread (run_record 30 (seqTrace 30 payload n)).channel).1).Pairwise
        (· < ·) := by
  have hch : (run_record 30 (seqTrace 30 payload n)).channel
      = (List.range n).map (fun i => (payload, (i + 1) * 33333333)) := by
    rw [run_record_seqTrace payload n hn]
  have hall : ∀ m ∈ (List.range n).map
      (fun i => (payload, (i + 1) * 33333333)), m.1 ≠ [] ∧ m.2 ≠ 0 := by
    intro m hm
    simp only [List.mem_map, List.mem_range] at hm
    obtain ⟨i, _, rfl⟩ := hm
    exact ⟨hp, by positivity⟩
  rw [hch, encoderThread_all_frames _ hall]
  refine ⟨by simp [List.map_map], ?_⟩
  simp only [List.map_map]
  exact (List.pairwise_lt_range n).map _
    (fun a b hab => by simp; omega)

theorem C1_pts_arithmetic_witness :
    (encoderThread (run_record 30 (seqTrace 30 [7] 5)).channel).1
        = (List.range 5).map (fun i => (i + 1) * 33333333)
    ∧ ((encoderThread (run_record 30 (seqTrace 30 [7] 5)).channel).1).Pairwise
        (· < ·) :=
  C1_pts_arithmetic 5 (by decide) [7] (by decide)

/-! ## Claim C2 -/

/-- Claim C2, as stated, is false on the code: when the single issued
capture's callback reports an error, an empty payload IS pushed onto the
channel (with the allocated timestamp), and the counter was already
consumed at issuance (`count = 2`); the encoder thread, on receiving the
empty payload, finalizes and stops instead of continuing. -/
theorem C2_counterexample :
    (run_record 30 c2Trace).channel = [([], 33333333)]
    ∧ (run_record 30 c2Trace).count = 2
    ∧ encoderThread (run_record 30 c2Trace).channel = ([], true) := by decide

/-- Claim C2 (amended): for every capture whose snapshot callback reports
an error, the message `([], count * (10^9/fps))` is pushed onto the frame
channel, the counter is unchanged by the callback (it was consumed at
issuance), and the encoder treats the empty payload as a stream
terminator: it finalizes and stops. -/
theorem C2_capture_failure (s : RecordState) (idx c : Nat) (e : String)
    (h : s.pending[idx]? = some c) :
    (callbackRun s idx (.error e)).channel
        = s.channel ++ [([], timestampNs c s.fps)]
    ∧ (callbackRun s idx (.error e)).count = s.count
    ∧ ∀ rest : List (List Nat × Nat),
        encoderThread (([], timestampNs c s.fps) :: rest) = ([], true) := by
  simp [callbackRun, h, encoderThread]

theorem C2_capture_failure_witness :
    (callbackRun (run_record 30 [.tick 0 .redrawRequested, .tick 33000000 .otherEvent]) 0
        (.error "boom")).channel
      = (run_record 30 [.tick 0 .redrawRequested, .tick 33000000 .otherEvent]).channel
        ++ [([], timestampNs 1
              (run_record 30 [.tick 0 .redrawRequested, .tick 33000000 .otherEvent]).fps)]
    ∧ (callbackRun (run_record 30 [.tick 0 .redrawRequested, .tick 33000000 .otherEvent]) 0
        (.error "boom")).count
      = (run_record 30 [.tick 0 .redrawRequested, .tick 33000000 .otherEvent]).count
    ∧ ∀ rest : List (List Nat × Nat),
        encoderThread (([], timestampNs 1
            (run_record 30 [.tick 0 .redrawRequested, .tick 33000000 .otherEvent]).fps) :: rest)
          = ([], true) :=
  C2_capture_failure _ 0 1 "boom" (by decide)

/-! ## Claim C3 -/

/-- Claim C3, as stated, is false on the code: after two elapsed-interval
ticks with no callback completion in between, two capture requests are
outstanding at once (the scheduler never checks for an in-flight request). -/
theorem C3_counterexample :
    (run_record 30 c3Trace).pending = [1, 2]
    ∧ 2 ≤ (run_record 30 c3Trace).pending.length := by decide

/-- Claim C3 (amended): the scheduler issues a new snapshot request
whenever the frame interval has elapsed and the webview is active, with no
outstanding-request check, so with one request already in flight the next
qualifying tick makes two outstanding at once. -/
theorem C3_overlapping_requests (s : RecordState) (now : Nat)
    (hp : s.pending ≠ []) (ha : s.activeWebview = true)
    (ht : frameDurationNs s.fps ≤ now - s.lastFrameTime) :
    2 ≤ (tick s now .otherEvent).pending.length := by
  have hlen : 0 < s.pending.length := List.length_pos.mpr hp
  rw [tick_pending, if_pos (show tickCond s now from ⟨ht, ha⟩)]
  simp only [List.length_append, List.length_cons, List.length_nil]
  omega

theorem C3_overlapping_requests_witness :
    2 ≤ (tick (run_record 30 [.tick 0 .redrawRequested, .tick 33000000 .otherEvent])
          66000000 .otherEvent).pending.length :=
  C3_overlapping_requests _ 66000000 (by decide) (by decide) (by decide)

/-! ## Claim C4 -/

/-- Claim C4, as stated, is false on the code: in the tick where the
counter reaches 400 the `(Vec::new(), 0)` end message is sent (after that
tick's own capture request was already issued), and on the next qualifying
tick the scheduler issues a further capture request (count 401) even
though the marker is already sent. -/
theorem C4_counterexample :
    (stepFn (run_record 30 (seqTrace 30 [7] 399)) (.tick 13200000000 .otherEvent)).eosSends
      = 1
    ∧ (stepFn (stepFn (run_record 30 (seqTrace 30 [7] 399)) (.tick 13200000000 .otherEvent))
        (.tick 13233000000 .otherEvent)).pending
      = [400, 401] := by
  rw [run_record_seqTrace [7] 399 (by omega)]
  decide

/-- Claim C4 (amended): the `(Vec::new(), 0)` end message is sent exactly
once over any interleaving — it has been sent iff the frame counter has
passed 400 — but the scheduler does not stop: it keeps issuing capture
requests on later ticks (see the counterexample). -/
theorem C4_eos_exactly_once (fps : Nat) (steps : List Step) :
    (run_record fps steps).eosSends
      = if 401 ≤ (run_record fps steps).count then 1 else 0 := by
  suffices h : ∀ (l : List Step) (s : RecordState),
      s.eosSends = (if 401 ≤ s.count then 1 else 0) →
      (l.foldl stepFn s).eosSends
        = if 401 ≤ (l.foldl stepFn s).count then 1 else 0 by
    exact h steps (initState fps) (by simp [initState])
  intro l
  induction l with
  | nil => intro s hs; simpa using hs
  | cons st rest ih => intro s hs; exact ih _ (stepFn_eos_invariant s st hs)

/-! ## Claim C5 -/

/-- Claim C5, as stated, is false on the code: two pushes with the same
pts (33333333) both succeed — the encoder performs no monotonicity check
and has no `NonMonotonicTimestamp` error. -/
theorem C5_counterexample :
    push_png_buffer_with_timestamp 30 1 [7] 33333333 (fun _ => .ok)
        = .ok (mkGstBuffer 30 1 [7] 33333333)
    ∧ push_png_buffer_with_timestamp 30 1 [8] 33333333 (fun _ => .ok)
        = .ok (mkGstBuffer 30 1 [8] 33333333) := by
  exact ⟨rfl, rfl⟩

/-- Claim C5 (amended): `push_png_buffer_with_timestamp` keeps no last-pts
state and performs no monotonicity check: it never fails with
`NonMonotonicTimestamp`, and it forwards the frame (returning the built
buffer) whenever the backend reports any `FlowSuccess`, regardless of how
the pts compares with previously pushed ones. -/
theorem C5_push_no_monotonic_guard (numer denom : Nat) (png : List Nat) (ts : Nat)
    (backend : GstBuffer → GstFlowReturn) :
    (∀ msg : String,
        push_png_buffer_with_timestamp numer denom png ts backend = .error msg →
        msg ≠ "NonMonotonicTimestamp")
    ∧ ((backend (mkGstBuffer numer denom png ts)).isSuccess = true →
        push_png_buffer_with_timestamp numer denom png ts backend
          = .ok (mkGstBuffer numer denom png ts)) := by
  unfold push_png_buffer_with_timestamp
  cases hb : backend (mkGstBuffer numer denom png ts) <;>
    simp [hb, GstFlowReturn.isSuccess, GstFlowReturn.name]

theorem C5_push_no_monotonic_guard_witness :
    ((fun _ => GstFlowReturn.ok) (mkGstBuffer 30 1 [8] 33333333)).isSuccess = true
    ∧ push_png_buffer_with_timestamp 30 1 [8] 33333333 (fun _ => .ok)
        = .ok (mkGstBuffer 30 1 [8] 33333333) :=
  ⟨by decide,
    (C5_push_no_monotonic_guard 30 1 [8] 33333333 (fun _ => .ok)).2 (by decide)⟩

/-! ## Claim C6 -/

/-- Claim C6, as stated, is false on the code: the encoder has no
finalized flag, so a second `finish` call repeats the same backend
sequence — with a backend that accepts it, the second call returns `.ok`,
not the error `AlreadyFinalized`. -/
theorem C6_counterexample :
    finish .ok [.eosMsg] true = .ok ()
    ∧ finish .ok [.eosMsg] true ≠ .error "AlreadyFinalized" :=
  ⟨rfl, fun h => Except.noConfusion h⟩

/-- Claim C6 (amended): `finish` keeps no finalized state; a repeated call
just re-runs `end_of_stream`, the bus drain and the state change, and
whatever error it reports comes from the backend — it is never the string
`AlreadyFinalized`. -/
theorem C6_no_already_finalized (r : GstFlowReturn) (msgs : List BusMessage)
    (stateOk : Bool) (e : String) (h : finish r msgs stateOk = .error e) :
    e ≠ "AlreadyFinalized" := by
  unfold finish at h
  by_cases hr : r.isSuccess = true
  · rw [if_pos hr] at h
    cases hd : busDrain msgs with
    | error m =>
        rw [hd] at h
        obtain ⟨m', rfl⟩ := busDrain_error_shape msgs m hd
        simp only [Except.error.injEq] at h
        rw [← h]
        exact pipeline_error_ne_alreadyFinalized m'
    | ok u =>
        rw [hd] at h
        cases u
        cases stateOk with
        | true => simp at h
        | false =>
            simp only [Bool.false_eq_true, if_false, Except.error.injEq] at h
            rw [← h]
            decide
  · rw [if_neg hr] at h
    simp only [Except.error.injEq] at h
    rw [← h]
    cases r <;> simp [GstFlowReturn.isSuccess] at hr <;> decide

theorem C6_no_already_finalized_witness :
    finish .flushing [] true = .error "Flushing"
    ∧ ("Flushing" : String) ≠ "AlreadyFinalized" :=
  ⟨rfl, C6_no_already_finalized .flushing [] true "Flushing" rfl⟩

/-! ## Claim C7 -/

/-- Claim C7, as stated, is false on the code: for a sequence number whose
nanosecond product exceeds 64 bits the computation silently wraps modulo
`2^64` — it returns the wrapped value, there is no `Overflow` error. -/
theorem C7_counterexample :
    2 ^ 64 ≤ 1000000000000 * (1000000000 / 30)
    ∧ timestampNs 1000000000000 30 = 14886588926290448384
    ∧ timestampNs 1000000000000 30 ≠ 1000000000000 * (1000000000 / 30) := by decide

/-- Claim C7 (amended): the timestamp computation is an unchecked `u64`
multiplication: the result always lies below `2^64` and equals the exact
product only when that product fits in 64 bits; beyond that it wraps
(see the counterexample) and no `Overflow` error is produced. -/
theorem C7_unchecked_wrap (count fps : Nat) :
    timestampNs count fps < 2 ^ 64
    ∧ (count * (1000000000 / fps) < 2 ^ 64 →
        timestampNs count fps = count * (1000000000 / fps)) := by
  unfold timestampNs u64Mod
  exact ⟨Nat.mod_lt _ (by positivity), fun h => Nat.mod_eq_of_lt h⟩

theorem C7_unchecked_wrap_witness :
    timestampNs 5 30 < 2 ^ 64 ∧ timestampNs 5 30 = 5 * (1000000000 / 30) :=
  ⟨(C7_unchecked_wrap 5 30).1, (C7_unchecked_wrap 5 30).2 (by decide)⟩

/-! ## Claim C8 -/

/-- Claim C8, as stated, is false on the code: a new capture request is
issued while one is still outstanding (no outstanding-request condition),
and the frame interval is the truncated whole-millisecond
`Duration::from_millis(1000 / 30)` = 33000000 ns, not the exact
`1s / 30` ≈ 33333333 ns. -/
theorem C8_counterexample :
    (run_record 30 [.tick 0 .redrawRequested, .tick 40000000 .otherEvent,
        .tick 80000000 .otherEvent]).pending.length = 2
    ∧ frameDurationNs 30 = 33000000
    ∧ (33000000 : Nat) ≠ 33333333 := by decide

/-- Claim C8 (amended): on every event-loop tick a new capture request is
issued iff the webview is active and `now - last_frame_time` is at least
`frame_duration`, where `frame_duration = floor(1000 / fps)` whole
milliseconds (33 ms at rate 30); there is no outstanding-request
condition. -/
theorem C8_tick_issuance (s : RecordState) (now : Nat) (ev : WinEvent) :
    ((tick s now ev).pending.length = s.pending.length + 1
      ↔ (frameDurationNs s.fps ≤ now - s.lastFrameTime ∧ s.activeWebview = true))
    ∧ frameDurationNs 30 = 33000000 := by
  refine ⟨?_, by decide⟩
  rw [tick_pending]
  unfold tickCond
  split_ifs with hc
  · simp [hc]
  · simp only [iff_false_intro hc, iff_false]
    omega

/-! ## Claim C9 -/

/-- Claim C9, as stated, is false on the code: observing `CloseRequested`
sets the exit control flow, but the encoder thread's `JoinHandle` is never
joined anywhere in `run_record`. -/
theorem C9_counterexample :
    (run_record 30 [.tick 0 .closeRequested]).exitRequested = true
    ∧ (run_record 30 [.tick 0 .closeRequested]).joinedEncoder = false := by decide

/-- Claim C9 (amended): no step of the event loop ever joins the encoder
thread — in every reachable state, including any in which a close request
set the exit flag, the encoder thread has not been joined, so `finish()`
is not guaranteed to have completed at process exit. -/
theorem C9_never_joins (fps : Nat) (steps : List Step) :
    (run_record fps steps).joinedEncoder = false := by
  suffices h : ∀ (l : List Step) (s : RecordState),
      s.joinedEncoder = false → (l.foldl stepFn s).joinedEncoder = false by
    exact h steps (initState fps) rfl
  intro l
  induction l with
  | nil => intro s hs; simpa using hs
  | cons st rest ih => intro s hs; exact ih _ ((stepFn_joinedEncoder s st).trans hs)

/-! ## Claim C10 -/

/-- Claim C10: in capture mode, whenever a snapshot delivers a non-empty
png payload that decodes (and saves) successfully, the process saves it as
`output.png` and exits with status 1, never reaching the success log line;
a decode failure panics instead of dropping the frame. -/
theorem C10_capture_exit_one (png : List Nat) (decodeOk saveOk : Bool)
    (hne : png ≠ []) :
    (decodeOk = true → saveOk = true →
      process_png_data png decodeOk saveOk
        = { logs := [], savedOutputPng := true, exitCode := some 1,
            panicked := false }
      ∧ "Screenshot saved as output.png" ∉ (process_png_data png decodeOk saveOk).logs)
    ∧ (decodeOk = false → (process_png_data png decodeOk saveOk).panicked = true) := by
  unfold process_png_data
  constructor
  · rintro rfl rfl
    rw [if_neg hne]
    simp
  · rintro rfl
    rw [if_neg hne]
    simp

theorem C10_capture_exit_one_witness :
    process_png_data [7] true true
      = { logs := [], savedOutputPng := true, exitCode := some 1, panicked := false }
    ∧ "Screenshot saved as output.png" ∉ (process_png_data [7] true true).logs :=
  (C10_capture_exit_one [7] true true (by decide)).1 rfl rfl
